import Mathlib

/-!
Verification of the client-side dispatch layer of the zmq driver
(file oslo_messaging/_drivers/zmq_driver/client/publishers/dealer/
zmq_dealer_publisher_proxy.py).

The embedding is shallow and executable:
* Python dicts keyed by `str(target)` become association lists over `String`
  (`dictGet` models `d.get(k)` / `d[k]`, `dictSet` models `d[k] = v`);
* `time.time()` and `matchmaker.get_hosts(...)` are taken from an explicit
  environment value passed to each call;
* exceptions become an explicit `PyErr` sum, and every stateful method
  returns its updated state together with an `Except PyErr` outcome
  (Python does not roll state back on an exception, so the state at the
  raise point is returned alongside the error);
* the outbound socket is the list of frames sent so far; `sockSend`
  models `socket.send(data, flags)` where the flag records zmq.SNDMORE.
-/

/-- Lookup in a Python dict modelled as an association list: `d.get(k)`. -/
def dictGet {α : Type} : List (String × α) → String → Option α
  | [], _ => none
  | (k', v) :: rest, k => if k' = k then some v else dictGet rest k

/-- Assignment in a Python dict modelled as an association list: `d[k] = v`. -/
def dictSet {α : Type} : List (String × α) → String → α → List (String × α)
  | [], k, v => [(k, v)]
  | (k', v') :: rest, k, v =>
      if k' = k then (k, v) :: rest else (k', v') :: dictSet rest k v

/-- Python exceptions that the embedded code can raise, plus the two error
classes named by the design document's taxonomy. -/
inductive PyErr : Type where
  /-- Python KeyError, from `d[k]` on a dict missing the key `k`. -/
  | keyError : PyErr
  /-- Python IndexError, from `list.pop(0)` on an empty list. -/
  | indexError : PyErr
  /-- Python ValueError, from `int(...)` on a non-numeric frame. -/
  | valueError : PyErr
  /-- Python AssertionError carrying its message, from the `assert`
  statements in `ReplyWaiterProxy.receive_method`. -/
  | assertionError (msg : String) : PyErr
  /-- UnsupportedSendPattern carrying the message type, raised by
  `DealerPublisherProxy.send_request` for CALL-type requests (the class
  lives in zmq_publisher_base, outside src/; the raise site is in src/). -/
  | unsupportedSendPattern (msg_type : Nat) : PyErr
  /-- Modelled from the spec: NoEndpointsAvailable(target) of the error
  taxonomy in the design document; no code under src/ defines or raises it. -/
  | noEndpointsAvailable (target : String) : PyErr
  /-- Modelled from the spec: ProtocolViolation(detail) of the error
  taxonomy in the design document; no code under src/ defines or raises it. -/
  | protocolViolation (detail : String) : PyErr
deriving DecidableEq, Repr

/-- Modelled from the spec: the message-type tags of the zmq_names module
(not under src/): distinct integers for CALL, CAST, FANOUT, NOTIFY, REPLY. -/
def CALL_TYPE : Nat := 1

/-- Modelled from the spec: the CAST message-type tag (zmq_names module). -/
def CAST_TYPE : Nat := 2

/-- Modelled from the spec: the fan-out CAST message-type tag (zmq_names
module). -/
def CAST_FANOUT_TYPE : Nat := 3

/-- Modelled from the spec: the NOTIFY message-type tag (zmq_names module). -/
def NOTIFY_TYPE : Nat := 4

/-- Modelled from the spec: the REPLY message-type tag (zmq_names module). -/
def REPLY_TYPE : Nat := 5

/-- Modelled from the spec: zmq_names.DIRECT_TYPES, the direct-addressed
message types (call and cast). -/
def DIRECT_TYPES : List Nat := [CALL_TYPE, CAST_TYPE]

/-- Modelled from the spec: zmq_address.target_to_subscribe_filter (module
not under src/), a deterministic topic/subscribe-filter string derived from
the target; modelled as the target's canonical string itself. -/
def target_to_subscribe_filter (target : String) : String := target

/-- Configuration values read by the embedded code: `conf.zmq_target_expire`
(the routing-record time-to-live) and `conf.use_pub_sub` (the
broadcast-capable transport-mode flag). -/
structure Conf : Type where
  zmq_target_expire : Int
  use_pub_sub : Bool
deriving DecidableEq, Repr

/-- The ambient world of one call: `get_hosts` is what
`matchmaker.get_hosts(target, ...)` would return right now, and `now` is
`time.time()` at the moment of the call. -/
structure Env : Type where
  get_hosts : String → List String
  now : Int

/-- State of `RoutingTable`: `routing_table` maps `str(target)` to the pair
of the fetched host list and its fetch time, `routable_hosts` maps
`str(target)` to the consumable round-robin queue. -/
structure RoutingTable : Type where
  routing_table : List (String × (List String × Int))
  routable_hosts : List (String × List String)
deriving DecidableEq, Repr

/-- Embeds `RoutingTable._is_tm_expired`: the chained Python comparison
`0 <= self.conf.zmq_target_expire <= time.time() - tm`. -/
def RoutingTable._is_tm_expired (conf : Conf) (now tm : Int) : Bool :=
  decide (0 ≤ conf.zmq_target_expire) && decide (conf.zmq_target_expire ≤ now - tm)

/-- Embeds `RoutingTable._fetch_hosts`: store the discovery result together
with the current time under the target's key. -/
def RoutingTable._fetch_hosts (env : Env) (rt : RoutingTable) (target : String) :
    RoutingTable :=
  { rt with routing_table :=
      dictSet rt.routing_table target (env.get_hosts target, env.now) }

/-- Embeds `RoutingTable._renew_routable_hosts`: rebuild the routable queue
as a copy of the host list of the routing record (`self.routing_table[str(target)]`
raises KeyError when the record is missing). -/
def RoutingTable._renew_routable_hosts (rt : RoutingTable) (target : String) :
    RoutingTable × Except PyErr Unit :=
  match dictGet rt.routing_table target with
  | none => (rt, Except.error PyErr.keyError)
  | some (hosts, _) =>
      ({ rt with routable_hosts := dictSet rt.routable_hosts target hosts },
        Except.ok ())

/-- Embeds `RoutingTable._update_routing_table`: on a missing record, fetch
and immediately rebuild the routable queue; on a TTL-expired record, fetch
only (the queue is left alone); otherwise do nothing. -/
def RoutingTable._update_routing_table (conf : Conf) (env : Env)
    (rt : RoutingTable) (target : String) : RoutingTable × Except PyErr Unit :=
  match dictGet rt.routing_table target with
  | none =>
      RoutingTable._renew_routable_hosts
        (RoutingTable._fetch_hosts env rt target) target
  | some (_, tm) =>
      if RoutingTable._is_tm_expired conf env.now tm then
        (RoutingTable._fetch_hosts env rt target, Except.ok ())
      else (rt, Except.ok ())

/-- Embeds `RoutingTable.get_routable_host`: update the cache, pop the head
of the routable queue (`self.routable_hosts[str(target)]` raises KeyError if
the queue is missing, `.pop(0)` raises IndexError if it is empty), and
rebuild the queue at once when the pop emptied it. -/
def RoutingTable.get_routable_host (conf : Conf) (env : Env)
    (rt : RoutingTable) (target : String) : RoutingTable × Except PyErr String :=
  match RoutingTable._update_routing_table conf env rt target with
  | (rt1, Except.error e) => (rt1, Except.error e)
  | (rt1, Except.ok ()) =>
      match dictGet rt1.routable_hosts target with
      | none => (rt1, Except.error PyErr.keyError)
      | some [] => (rt1, Except.error PyErr.indexError)
      | some (host :: rest) =>
          let rt2 :=
            { rt1 with routable_hosts := dictSet rt1.routable_hosts target rest }
          if rest.isEmpty then
            match RoutingTable._renew_routable_hosts rt2 target with
            | (rt3, Except.ok ()) => (rt3, Except.ok host)
            | (rt3, Except.error e) => (rt3, Except.error e)
          else (rt2, Except.ok host)

/-- Embeds `RoutingTable.get_all_hosts`: update the cache, then return a copy
of `self.routable_hosts.get(str(target)) or []`. -/
def RoutingTable.get_all_hosts (conf : Conf) (env : Env)
    (rt : RoutingTable) (target : String) :
    RoutingTable × Except PyErr (List String) :=
  match RoutingTable._update_routing_table conf env rt target with
  | (rt1, Except.error e) => (rt1, Except.error e)
  | (rt1, Except.ok ()) =>
      (rt1, Except.ok ((dictGet rt1.routable_hosts target).getD []))

/-- A sequence of `get_routable_host` calls on one target, one environment
value per call, collecting the returned hosts in order; stops at the first
raised exception. -/
def call_seq (conf : Conf) (envs : List Env) (rt : RoutingTable)
    (target : String) : RoutingTable × Except PyErr (List String) :=
  match envs with
  | [] => (rt, Except.ok [])
  | e :: rest =>
      match RoutingTable.get_routable_host conf e rt target with
      | (rt1, Except.error err) => (rt1, Except.error err)
      | (rt1, Except.ok host) =>
          match call_seq conf rest rt1 target with
          | (rt2, Except.ok hosts) => (rt2, Except.ok (host :: hosts))
          | (rt2, Except.error err) => (rt2, Except.error err)

/-- One wire frame: the bytes sent and whether zmq.SNDMORE was set (more
frames of the same envelope follow). Serialized pyobj blobs are modelled by
the serialized value itself. -/
structure Frame : Type where
  data : String
  more : Bool
deriving DecidableEq, Repr

/-- Models `socket.send(data, flags)` on the outbound socket: append one
frame to the trace of frames sent so far. -/
def sockSend (sock : List Frame) (data : String) (more : Bool) : List Frame :=
  sock ++ [{ data := data, more := more }]

/-- A request as used by the embedded code: the message-type tag, the target
(already in canonical string form), the message id, and the opaque context
and payload blobs. -/
structure Request : Type where
  msg_type : Nat
  target : String
  message_id : String
  context : String
  message : String
deriving DecidableEq, Repr

/-- Embeds `DealerPublisherProxy._do_send_request`: the six ordered sends of
one envelope; every frame except the last is sent with zmq.SNDMORE. -/
def DealerPublisherProxy._do_send_request (sock : List Frame)
    (request : Request) (routing_key : String) : List Frame :=
  let sock := sockSend sock "" true
  let sock := sockSend sock (toString request.msg_type) true
  let sock := sockSend sock routing_key true
  let sock := sockSend sock request.message_id true
  let sock := sockSend sock request.context true
  let sock := sockSend sock request.message false
  sock

/-- Embeds `DealerPublisherProxy.send_request`: reject CALL-type requests,
then branch on `conf.use_pub_sub`; in pub-sub mode direct types resolve one
round-robin host and other types use the subscribe filter, otherwise one
envelope is sent per host of the snapshot read. -/
def DealerPublisherProxy.send_request (conf : Conf) (env : Env)
    (rt : RoutingTable) (sock : List Frame) (request : Request) :
    RoutingTable × List Frame × Except PyErr Unit :=
  if request.msg_type = CALL_TYPE then
    (rt, sock, Except.error (PyErr.unsupportedSendPattern request.msg_type))
  else if conf.use_pub_sub then
    if DIRECT_TYPES.contains request.msg_type then
      match RoutingTable.get_routable_host conf env rt request.target with
      | (rt1, Except.ok routing_key) =>
          (rt1, DealerPublisherProxy._do_send_request sock request routing_key,
            Except.ok ())
      | (rt1, Except.error e) => (rt1, sock, Except.error e)
    else
      (rt, DealerPublisherProxy._do_send_request sock request
            (target_to_subscribe_filter request.target), Except.ok ())
  else
    match RoutingTable.get_all_hosts conf env rt request.target with
    | (rt1, Except.ok routing_keys) =>
        (rt1,
          routing_keys.foldl
            (fun s k => DealerPublisherProxy._do_send_request s request k) sock,
          Except.ok ())
    | (rt1, Except.error e) => (rt1, sock, Except.error e)

/-- Embeds `CallSenderProxy._do_send_request`: resolve exactly one host by
round-robin and send the same six-frame envelope on the shared socket. -/
def CallSenderProxy._do_send_request (conf : Conf) (env : Env)
    (rt : RoutingTable) (sock : List Frame) (request : Request) :
    RoutingTable × List Frame × Except PyErr Unit :=
  match RoutingTable.get_routable_host conf env rt request.target with
  | (rt1, Except.error e) => (rt1, sock, Except.error e)
  | (rt1, Except.ok routing_key) =>
      let sock := sockSend sock "" true
      let sock := sockSend sock (toString request.msg_type) true
      let sock := sockSend sock routing_key true
      let sock := sockSend sock request.message_id true
      let sock := sockSend sock request.context true
      let sock := sockSend sock request.message false
      (rt1, sock, Except.ok ())

/-- Helper of `pyInt`: the ASCII whitespace characters that Python
`int(...)` strips from both ends of a byte string before parsing. -/
def pyIsSpace (c : Char) : Bool :=
  c = ' ' || c = '\t' || c = '\n' || c = '\r' || c = '\x0b' || c = '\x0c'

/-- Helper of `pyInt`: consume decimal digits, carrying the value parsed so
far (`none` while no digit has been seen, so an empty digit string fails);
a single underscore is allowed between two digits, as in Python 3. -/
def pyDigits : List Char → Option Nat → Option Nat
  | [], acc => acc
  | c :: rest, acc =>
      if c.isDigit then
        pyDigits rest (some ((acc.getD 0) * 10 + (c.toNat - 48)))
      else if c = '_' then
        match acc, rest with
        | some v, d :: rest2 =>
            if d.isDigit then pyDigits (d :: rest2) (some v) else none
        | _, _ => none
      else none

/-- Models Python `int(...)` applied to a byte string (as in
`int(socket.recv())`): surrounding ASCII whitespace is stripped, then an
optional `+` or `-` sign is followed by at least one decimal digit (single
underscores allowed between digits, as in Python 3); anything else raises
ValueError, modelled as `none`. -/
def pyInt (s : String) : Option Int :=
  match ((s.data.dropWhile pyIsSpace).reverse.dropWhile pyIsSpace).reverse
      with
  | '-' :: rest => (pyDigits rest none).map (fun n => -(n : Int))
  | '+' :: rest => (pyDigits rest none).map (fun n => (n : Int))
  | l => (pyDigits l none).map (fun n => (n : Int))

/-- Embeds `ReplyWaiterProxy.receive_method` on the five frames of one reply
read: assert the empty delimiter, skip the reply id (a received frame is
never Python None, so its assert always passes), convert the type frame with
`int(...)` (ValueError on a non-numeric frame), assert it equals REPLY_TYPE,
and return the payload. -/
def ReplyWaiterProxy.receive_method (empty reply_id message_type_frame
    message_id reply : String) : Except PyErr String :=
  if empty ≠ "" then Except.error (PyErr.assertionError "Empty expected!")
  else
    match pyInt message_type_frame with
    | none => Except.error PyErr.valueError
    | some message_type =>
        if message_type ≠ (REPLY_TYPE : Int) then
          Except.error (PyErr.assertionError "Reply is expected!")
        else Except.ok reply

/-- Modelled from the spec: the reply waiter's poll loop (zmq_reply_waiter
module, not under src/) decodes one reply via `receive_method` and, on
success, hands it to the correlation engine, which resolves the pending call
registered under the reply's message id; on a decode failure no call is
resolved. Returns the list of message ids resolved by one readable event. -/
def ReplyWaiterProxy.resolved_calls (empty reply_id message_type_frame
    message_id reply : String) : List String :=
  match ReplyWaiterProxy.receive_method empty reply_id message_type_frame
      message_id reply with
  | Except.ok _ => [message_id]
  | Except.error _ => []

/-- Round-robin expectation used to state C1: the host returned by the
i-th call when the queue currently holds `hosts.drop j` and the record holds
`hosts`. -/
def rrCycle (hosts : List String) (j : Nat) (i : Nat) : String :=
  hosts.getD ((j + i) % hosts.length) ""

/-- Expectation used to state C2: the host returned by the i-th call when
the queue currently holds `q` and every rebuild will use the host list `D`. -/
def rrExpect (q D : List String) (i : Nat) : String :=
  if i < q.length then q.getD i "" else D.getD ((i - q.length) % D.length) ""

/-- Decidable equality of call outcomes, so that concrete runs of the
embedded code can be checked by evaluation. -/
instance {ε α : Type} [DecidableEq ε] [DecidableEq α] :
    DecidableEq (Except ε α) := fun x y =>
  match x, y with
  | Except.ok a, Except.ok b =>
      if h : a = b then isTrue (by rw [h])
      else isFalse (by intro hc; injection hc; exact h (by assumption))
  | Except.error a, Except.error b =>
      if h : a = b then isTrue (by rw [h])
      else isFalse (by intro hc; injection hc; exact h (by assumption))
  | Except.ok _, Except.error _ => isFalse (by intro hc; exact Except.noConfusion hc)
  | Except.error _, Except.ok _ => isFalse (by intro hc; exact Except.noConfusion hc)

theorem dictGet_dictSet_self {α : Type} (m : List (String × α)) (k : String)
    (v : α) : dictGet (dictSet m k v) k = some v := by
  induction m with
  | nil => simp [dictGet, dictSet]
  | cons p rest ih =>
      obtain ⟨k', v'⟩ := p
      by_cases h : k' = k <;> simp [dictGet, dictSet, h, ih]

theorem dictSet_dictSet {α : Type} (m : List (String × α)) (k : String)
    (v w : α) : dictSet (dictSet m k v) k w = dictSet m k w := by
  induction m with
  | nil => simp [dictSet]
  | cons p rest ih =>
      obtain ⟨k', v'⟩ := p
      by_cases h : k' = k <;> simp [dictSet, h, ih]

theorem list_map_congr_mem {α β : Type} (f g : α → β) :
    ∀ (l : List α), (∀ a ∈ l, f a = g a) → l.map f = l.map g := by
  intro l
  induction l with
  | nil => intro _; rfl
  | cons a rest ih =>
      intro h
      simp only [List.map_cons]
      rw [h a (by simp), ih (fun b hb => h b (by simp [hb]))]

theorem map_range_getD (l : List String) :
    (List.range l.length).map (fun i => l.getD i "") = l := by
  induction l with
  | nil => rfl
  | cons a rest ih =>
      rw [List.length_cons, List.range_succ_eq_map, List.map_cons, List.map_map]
      have h : List.map ((fun i => (a :: rest).getD i "") ∘ Nat.succ)
          (List.range rest.length)
          = List.map (fun i => rest.getD i "") (List.range rest.length) :=
        list_map_congr_mem _ _ _ (fun i _ => by simp [Function.comp])
      simp only [List.getD_cons_zero]
      rw [h, ih]

theorem getD_zero_headD (l : List String) : l.getD 0 "" = l.headD "" := by
  cases l <;> rfl

theorem grh_step (conf : Conf) (e : Env) (rt : RoutingTable) (target : String)
    (hosts : List String) (tm : Int) (j : Nat)
    (hrec : dictGet rt.routing_table target = some (hosts, tm))
    (hfresh : RoutingTable._is_tm_expired conf e.now tm = false)
    (hq : dictGet rt.routable_hosts target = some (hosts.drop j))
    (hj : j < hosts.length) :
    RoutingTable.get_routable_host conf e rt target =
      ({ rt with routable_hosts :=
          dictSet rt.routable_hosts target (hosts.drop ((j + 1) % hosts.length)) },
        Except.ok (hosts.getD j "")) := by
  have hupd : RoutingTable._update_routing_table conf e rt target
      = (rt, Except.ok ()) := by
    unfold RoutingTable._update_routing_table
    rw [hrec]
    simp [hfresh]
  have hdrop : hosts.drop j = hosts.getD j "" :: hosts.drop (j + 1) := by
    rw [List.getD_eq_getElem hosts "" hj]
    exact List.drop_eq_getElem_cons hj
  by_cases hlast : j + 1 = hosts.length
  · have hnil : hosts.drop (j + 1) = [] := by
      rw [hlast]
      exact List.drop_length hosts
    have hmod : (j + 1) % hosts.length = 0 := by
      rw [hlast]
      exact Nat.mod_self _
    simp only [RoutingTable.get_routable_host, hupd, hq, hdrop, hnil, hmod,
      List.drop_zero, List.isEmpty_nil, if_true,
      RoutingTable._renew_routable_hosts]
    simp [hrec, dictSet_dictSet]
  · have hlt : j + 1 < hosts.length := by omega
    have hie : (hosts.drop (j + 1)).isEmpty = false := by
      cases hd : hosts.drop (j + 1) with
      | nil =>
          have := List.drop_eq_nil_iff.mp hd
          omega
      | cons _ _ => rfl
    have hmod : (j + 1) % hosts.length = j + 1 := Nat.mod_eq_of_lt hlt
    simp only [RoutingTable.get_routable_host, hupd, hq, hdrop, hie, hmod]
    simp

theorem rrCycle_succ (hosts : List String) (hne : hosts ≠ []) (j i : Nat) :
    rrCycle hosts j (i + 1) = rrCycle hosts ((j + 1) % hosts.length) i := by
  unfold rrCycle
  rw [Nat.mod_add_mod]
  rw [show j + 1 + i = j + (i + 1) from by omega]

theorem call_seq_rr (conf : Conf) (target : String) (hosts : List String)
    (tm : Int) :
    ∀ (envs : List Env) (j : Nat) (rt : RoutingTable),
    dictGet rt.routing_table target = some (hosts, tm) →
    dictGet rt.routable_hosts target = some (hosts.drop j) →
    j < hosts.length →
    (∀ e ∈ envs, RoutingTable._is_tm_expired conf e.now tm = false) →
    (call_seq conf envs rt target).2
      = Except.ok ((List.range envs.length).map (rrCycle hosts j)) := by
  intro envs
  induction envs with
  | nil =>
      intro j rt _ _ _ _
      simp [call_seq]
  | cons e rest ih =>
      intro j rt hrec hq hj hfresh
      have hne : hosts ≠ [] := by
        intro hcon
        rw [hcon] at hj
        simp at hj
      obtain ⟨rt', hstep, hrec', hq'⟩ :
          ∃ rt', RoutingTable.get_routable_host conf e rt target
              = (rt', Except.ok (hosts.getD j ""))
            ∧ dictGet rt'.routing_table target = some (hosts, tm)
            ∧ dictGet rt'.routable_hosts target
                = some (hosts.drop ((j + 1) % hosts.length)) :=
        ⟨_, grh_step conf e rt target hosts tm j hrec (hfresh e (by simp)) hq hj,
          hrec, dictGet_dictSet_self _ _ _⟩
      have hj1 : (j + 1) % hosts.length < hosts.length :=
        Nat.mod_lt _ (by omega)
      have ihh := ih ((j + 1) % hosts.length) rt' hrec' hq' hj1
        (fun e2 he2 => hfresh e2 (by simp [he2]))
      simp only [call_seq, hstep]
      rcases hcs : call_seq conf rest rt' target with ⟨rt2, res2⟩
      rw [hcs] at ihh
      simp only at ihh
      rw [ihh]
      simp only [List.length_cons, List.range_succ_eq_map, List.map_cons,
        List.map_map]
      have hhead : rrCycle hosts j 0 = hosts.getD j "" := by
        unfold rrCycle
        rw [Nat.add_zero, Nat.mod_eq_of_lt hj]
      have htail : List.map (rrCycle hosts j ∘ Nat.succ) (List.range rest.length)
          = List.map (rrCycle hosts ((j + 1) % hosts.length))
              (List.range rest.length) :=
        list_map_congr_mem _ _ _
          (fun i _ => by
            simp only [Function.comp_apply]
            exact rrCycle_succ hosts hne j i)
      rw [hhead, htail]

/-- C1: for a target whose routing record holds the N endpoints `hosts`
(N ≥ 1) and is present and not TTL-expired at any of the calls, a sequence
of `get_routable_host` calls starting at a rotation boundary (routable queue
freshly built from the record) returns the endpoints as a repeating
round-robin cycle of length N, in discovery order: the i-th call returns
endpoint number i mod N. -/
theorem C1_round_robin_cycle (conf : Conf) (envs : List Env)
    (rt : RoutingTable) (target : String) (hosts : List String) (tm : Int)
    (N : Nat)
    (hrec : dictGet rt.routing_table target = some (hosts, tm))
    (hq : dictGet rt.routable_hosts target = some hosts)
    (hN : hosts.length = N) (hN1 : 1 ≤ N)
    (hfresh : ∀ e ∈ envs, RoutingTable._is_tm_expired conf e.now tm = false) :
    (call_seq conf envs rt target).2
      = Except.ok ((List.range envs.length).map (fun i => hosts.getD (i % N) "")) := by
  subst hN
  have hq0 : dictGet rt.routable_hosts target = some (hosts.drop 0) := by
    rw [List.drop_zero]
    exact hq
  have h := call_seq_rr conf target hosts tm envs 0 rt hrec hq0 (by omega) hfresh
  rw [h]
  congr 1
  exact list_map_congr_mem _ _ _
    (fun i _ => by unfold rrCycle; rw [Nat.zero_add])

/-- Witness for C1: a target resolving to [A, B, C]; four consecutive calls
return A, B, C, A. -/
theorem C1_round_robin_cycle_witness :
    (call_seq ⟨10, true⟩ (List.replicate 4 ⟨fun _ => ["A", "B", "C"], 0⟩)
        ⟨[("T", (["A", "B", "C"], 0))], [("T", ["A", "B", "C"])]⟩ "T").2
      = Except.ok ["A", "B", "C", "A"] := by
  have h := C1_round_robin_cycle ⟨10, true⟩
    (List.replicate 4 ⟨fun _ => ["A", "B", "C"], 0⟩)
    ⟨[("T", (["A", "B", "C"], 0))], [("T", ["A", "B", "C"])]⟩ "T"
    ["A", "B", "C"] 0 3 (by decide) (by decide) (by decide) (by decide)
    (by
      intro e he
      rw [List.eq_of_mem_replicate he]
      decide)
  exact h.trans (by decide)

theorem grh_step_const (conf : Conf) (e : Env) (rt : RoutingTable)
    (target : String) (D hosts0 : List String) (tm : Int) (x : String)
    (t : List String)
    (hrec : dictGet rt.routing_table target = some (hosts0, tm))
    (hor : hosts0 = D ∨ RoutingTable._is_tm_expired conf e.now tm = true)
    (hD : e.get_hosts target = D)
    (hq : dictGet rt.routable_hosts target = some (x :: t)) :
    ∃ rt' tm',
      RoutingTable.get_routable_host conf e rt target = (rt', Except.ok x)
      ∧ dictGet rt'.routing_table target = some (D, tm')
      ∧ dictGet rt'.routable_hosts target
          = some (if t.isEmpty then D else t) := by
  obtain ⟨rt1, tm1, hupd, hrec1, hrh1⟩ :
      ∃ rt1 tm1,
        RoutingTable._update_routing_table conf e rt target
          = (rt1, Except.ok ())
        ∧ dictGet rt1.routing_table target = some (D, tm1)
        ∧ rt1.routable_hosts = rt.routable_hosts := by
    by_cases hexp : RoutingTable._is_tm_expired conf e.now tm = true
    · refine ⟨RoutingTable._fetch_hosts e rt target, e.now, ?_, ?_, rfl⟩
      · unfold RoutingTable._update_routing_table
        rw [hrec]
        simp [hexp]
      · show dictGet
            (dictSet rt.routing_table target (e.get_hosts target, e.now))
            target = some (D, e.now)
        rw [hD]
        exact dictGet_dictSet_self _ _ _
    · have hexp' : RoutingTable._is_tm_expired conf e.now tm = false := by
        revert hexp
        cases RoutingTable._is_tm_expired conf e.now tm <;> simp
      have hD0 : hosts0 = D := hor.resolve_right (by simp [hexp'])
      refine ⟨rt, tm, ?_, ?_, rfl⟩
      · unfold RoutingTable._update_routing_table
        rw [hrec]
        simp [hexp']
      · rw [hrec, hD0]
  cases t with
  | nil =>
      have hrun : RoutingTable.get_routable_host conf e rt target
          = ({ rt1 with routable_hosts :=
                (dictSet (dictSet rt1.routable_hosts target []) target D) },
              Except.ok x) := by
        simp only [RoutingTable.get_routable_host, hupd, hrh1, hq,
          List.isEmpty_nil, if_true, RoutingTable._renew_routable_hosts, hrec1]
      refine ⟨_, tm1, hrun, ?_, ?_⟩
      · exact hrec1
      · simp [dictGet_dictSet_self]
  | cons y t2 =>
      have hrun : RoutingTable.get_routable_host conf e rt target
          = ({ rt1 with routable_hosts :=
                (dictSet rt1.routable_hosts target (y :: t2)) },
              Except.ok x) := by
        simp only [RoutingTable.get_routable_host, hupd, hrh1, hq,
          List.isEmpty_cons, Bool.false_eq_true, if_false]
      refine ⟨_, tm1, hrun, ?_, ?_⟩
      · exact hrec1
      · simp [dictGet_dictSet_self]

theorem rrExpect_zero (x : String) (t D : List String) :
    rrExpect (x :: t) D 0 = x := by
  unfold rrExpect
  simp

theorem rrExpect_succ (x : String) (t D : List String) (i : Nat) :
    rrExpect (x :: t) D (i + 1) = rrExpect (if t.isEmpty then D else t) D i := by
  cases t with
  | nil =>
      unfold rrExpect
      simp only [List.isEmpty_nil, if_true, List.length_cons, List.length_nil]
      rw [if_neg (by omega)]
      by_cases h : i < D.length
      · rw [if_pos h]
        have h1 : i + 1 - (0 + 1) = i := by omega
        rw [h1, Nat.mod_eq_of_lt h]
      · rw [if_neg h]
        have h1 : i + 1 - (0 + 1) = i := by omega
        rw [h1]
        conv_lhs => rw [show i = (i - D.length) + D.length from by omega]
        rw [Nat.add_mod_right]
  | cons y t2 =>
      unfold rrExpect
      simp only [List.isEmpty_cons, Bool.false_eq_true, if_false]
      by_cases h : i < (y :: t2).length
      · have hx : i + 1 < (x :: y :: t2).length := by
          simp only [List.length_cons] at h ⊢
          omega
        rw [if_pos hx, if_pos h]
        exact List.getD_cons_succ
      · have hx : ¬ i + 1 < (x :: y :: t2).length := by
          simp only [List.length_cons] at h ⊢
          omega
        rw [if_neg hx, if_neg h]
        have h1 : i + 1 - (x :: y :: t2).length = i - (y :: t2).length := by
          simp only [List.length_cons]
          omega
        rw [h1]

theorem call_seq_const (conf : Conf) (e : Env) (target : String)
    (D : List String) (hD : e.get_hosts target = D) (hDne : D ≠ []) :
    ∀ (n : Nat) (q : List String) (rt : RoutingTable)
      (hosts0 : List String) (tm : Int),
    dictGet rt.routing_table target = some (hosts0, tm) →
    (hosts0 = D ∨ RoutingTable._is_tm_expired conf e.now tm = true) →
    dictGet rt.routable_hosts target = some q →
    q ≠ [] →
    (call_seq conf (List.replicate n e) rt target).2
      = Except.ok ((List.range n).map (rrExpect q D)) := by
  intro n
  induction n with
  | zero =>
      intro q rt hosts0 tm _ _ _ _
      simp [call_seq]
  | succ n ih =>
      intro q rt hosts0 tm hrec hor hq hqne
      cases q with
      | nil => exact absurd rfl hqne
      | cons x t =>
          obtain ⟨rt', tm', hstep, hrec', hq'⟩ :=
            grh_step_const conf e rt target D hosts0 tm x t hrec hor hD hq
          have hq'ne : (if t.isEmpty then D else t) ≠ [] := by
            cases t with
            | nil => simpa using hDne
            | cons y t2 => simp
          have ihh := ih (if t.isEmpty then D else t) rt' D tm' hrec'
            (Or.inl rfl) hq' hq'ne
          rw [List.replicate_succ]
          simp only [call_seq, hstep]
          rcases hcs : call_seq conf (List.replicate n e) rt' target
            with ⟨rt2, res2⟩
          rw [hcs] at ihh
          simp only at ihh
          subst ihh
          simp only [List.range_succ_eq_map, List.map_cons, List.map_map]
          rw [rrExpect_zero]
          have htail : List.map (rrExpect (x :: t) D ∘ Nat.succ)
              (List.range n)
              = List.map (rrExpect (if t.isEmpty then D else t) D)
                  (List.range n) :=
            list_map_congr_mem _ _ _
              (fun i _ => by
                simp only [Function.comp_apply]
                exact rrExpect_succ x t D i)
          rw [htail]

theorem map_range_rrExpect (q D : List String) :
    (List.range q.length).map (rrExpect q D) = q := by
  have h : (List.range q.length).map (rrExpect q D)
      = (List.range q.length).map (fun i => q.getD i "") :=
    list_map_congr_mem _ _ _
      (fun i hi => by
        unfold rrExpect
        rw [if_pos (List.mem_range.mp hi)])
  rw [h, map_range_getD]

/-- C2: when a lookup finds the routing record of a target TTL-expired while
the target's routable queue is non-empty, the update step replaces the
routing record wholesale but leaves the routable-queue map untouched; the
subsequent `get_routable_host` calls first consume the pre-existing queue in
its remaining order, and the head of the newly fetched endpoint set is
returned only by the call after the old queue has been fully consumed. -/
theorem C2_ttl_refresh_keeps_active_rotation (conf : Conf) (e : Env)
    (rt : RoutingTable) (target : String) (old : List String) (tm : Int)
    (q : List String)
    (hrec : dictGet rt.routing_table target = some (old, tm))
    (hexp : RoutingTable._is_tm_expired conf e.now tm = true)
    (hq : dictGet rt.routable_hosts target = some q)
    (hqne : q ≠ [])
    (hDne : e.get_hosts target ≠ []) :
    RoutingTable._update_routing_table conf e rt target
      = ({ rt with routing_table :=
            (dictSet rt.routing_table target (e.get_hosts target, e.now)) },
          Except.ok ())
    ∧ (call_seq conf (List.replicate q.length e) rt target).2 = Except.ok q
    ∧ (call_seq conf (List.replicate (q.length + 1) e) rt target).2
        = Except.ok (q ++ [(e.get_hosts target).headD ""]) := by
  refine ⟨?_, ?_, ?_⟩
  · unfold RoutingTable._update_routing_table
    rw [hrec]
    simp [hexp, RoutingTable._fetch_hosts]
  · have h2 := call_seq_const conf e target (e.get_hosts target) rfl hDne
      q.length q rt old tm hrec (Or.inr hexp) hq hqne
    rw [h2, map_range_rrExpect]
  · have h3 := call_seq_const conf e target (e.get_hosts target) rfl hDne
      (q.length + 1) q rt old tm hrec (Or.inr hexp) hq hqne
    rw [h3]
    congr 1
    rw [List.range_succ, List.map_append, map_range_rrExpect]
    congr 1
    simp only [List.map_cons, List.map_nil]
    congr 1
    unfold rrExpect
    rw [if_neg (by omega), Nat.sub_self, Nat.zero_mod, getD_zero_headD]

/-- Witness for C2: TTL 0, record ([A, B], fetched at 0) expired at time 5,
queue [A, B], discovery now returns [C]; the first two calls still return
A then B, and the third call returns C. -/
theorem C2_ttl_refresh_keeps_active_rotation_witness :
    (call_seq ⟨0, false⟩ (List.replicate 2 ⟨fun _ => ["C"], 5⟩)
        ⟨[("T", (["A", "B"], 0))], [("T", ["A", "B"])]⟩ "T").2
      = Except.ok ["A", "B"]
    ∧ (call_seq ⟨0, false⟩ (List.replicate 3 ⟨fun _ => ["C"], 5⟩)
        ⟨[("T", (["A", "B"], 0))], [("T", ["A", "B"])]⟩ "T").2
      = Except.ok ["A", "B", "C"] := by
  have h := C2_ttl_refresh_keeps_active_rotation ⟨0, false⟩
    ⟨fun _ => ["C"], 5⟩ ⟨[("T", (["A", "B"], 0))], [("T", ["A", "B"])]⟩
    "T" ["A", "B"] 0 ["A", "B"] (by decide) (by decide) (by decide)
    (by decide) (by decide)
  exact ⟨h.2.1, h.2.2.trans (by decide)⟩

/-- Counterexample for C3: for a fresh target whose discovery returns the
empty endpoint list, `get_routable_host` raises IndexError (Python
`[].pop(0)` on the empty rebuilt queue), not NoEndpointsAvailable; the code
never raises `PyErr.noEndpointsAvailable`. -/
theorem C3_counterexample :
    RoutingTable.get_routable_host ⟨0, false⟩ ⟨fun _ => [], 0⟩ ⟨[], []⟩ "T"
      = (⟨[("T", ([], 0))], [("T", [])]⟩, Except.error PyErr.indexError) := by
  decide

/-- C3 (amended): for every target with no routing record for which discovery
returns an empty endpoint list, `get_routable_host` fails by raising
IndexError from popping the empty rebuilt queue (the queue built by the
rebuild attempt is empty); it does not raise NoEndpointsAvailable, which
does not exist in the code. -/
theorem C3_empty_discovery_raises_indexError (conf : Conf) (env : Env)
    (rt : RoutingTable) (target : String)
    (hmiss : dictGet rt.routing_table target = none)
    (hdisc : env.get_hosts target = []) :
    (RoutingTable.get_routable_host conf env rt target).2
      = Except.error PyErr.indexError
    ∧ dictGet
        (RoutingTable.get_routable_host conf env rt target).1.routable_hosts
        target = some [] := by
  have hupd : RoutingTable._update_routing_table conf env rt target
      = ({ rt with
            routing_table := (dictSet rt.routing_table target ([], env.now)),
            routable_hosts := (dictSet rt.routable_hosts target []) },
          Except.ok ()) := by
    simp only [RoutingTable._update_routing_table, hmiss,
      RoutingTable._fetch_hosts, hdisc, RoutingTable._renew_routable_hosts,
      dictGet_dictSet_self]
  constructor
  · simp only [RoutingTable.get_routable_host, hupd, dictGet_dictSet_self]
  · simp only [RoutingTable.get_routable_host, hupd, dictGet_dictSet_self]

/-- Witness for the amended C3 at a concrete input. -/
theorem C3_empty_discovery_raises_indexError_witness :
    (RoutingTable.get_routable_host ⟨0, false⟩ ⟨fun _ => [], 0⟩
        ⟨[], []⟩ "T").2 = Except.error PyErr.indexError
    ∧ dictGet (RoutingTable.get_routable_host ⟨0, false⟩ ⟨fun _ => [], 0⟩
        ⟨[], []⟩ "T").1.routable_hosts "T" = some [] :=
  C3_empty_discovery_raises_indexError ⟨0, false⟩ ⟨fun _ => [], 0⟩ ⟨[], []⟩
    "T" (by decide) (by decide)

/-- Counterexample for C4: a reply whose first frame is not zero-length
makes `receive_method` raise AssertionError (from the Python `assert`
statement), not ProtocolViolation — `PyErr.protocolViolation` is never
produced by the code — and no pending call is resolved. -/
theorem C4_counterexample :
    ReplyWaiterProxy.receive_method "x" "id" "5" "m" "p"
      = Except.error (PyErr.assertionError "Empty expected!")
    ∧ ReplyWaiterProxy.resolved_calls "x" "id" "5" "m" "p" = [] := by
  constructor <;> decide

/-- C4 (amended): for every reply frame sequence whose first frame is not
zero-length, or whose message-type frame does not parse to the REPLY tag,
`receive_method` raises an AssertionError (or a ValueError when the type
frame is not a decimal integer) — not ProtocolViolation — and no pending
call is resolved. -/
theorem C4_invalid_reply_raises_assertion (empty reply_id mtf mid
    payload : String)
    (hbad : empty ≠ "" ∨ pyInt mtf ≠ some (REPLY_TYPE : Int)) :
    (ReplyWaiterProxy.receive_method empty reply_id mtf mid payload
        = Except.error (PyErr.assertionError "Empty expected!")
      ∨ ReplyWaiterProxy.receive_method empty reply_id mtf mid payload
          = Except.error PyErr.valueError
      ∨ ReplyWaiterProxy.receive_method empty reply_id mtf mid payload
          = Except.error (PyErr.assertionError "Reply is expected!"))
    ∧ ReplyWaiterProxy.resolved_calls empty reply_id mtf mid payload = [] := by
  have hmain : ReplyWaiterProxy.receive_method empty reply_id mtf mid payload
        = Except.error (PyErr.assertionError "Empty expected!")
      ∨ ReplyWaiterProxy.receive_method empty reply_id mtf mid payload
          = Except.error PyErr.valueError
      ∨ ReplyWaiterProxy.receive_method empty reply_id mtf mid payload
          = Except.error (PyErr.assertionError "Reply is expected!") := by
    by_cases hemp : empty = ""
    · rcases hbad with hbad | hbad
      · exact absurd hemp hbad
      · cases hint : pyInt mtf with
        | none =>
            right
            left
            unfold ReplyWaiterProxy.receive_method
            rw [if_neg (by simp [hemp]), hint]
        | some v =>
            right
            right
            have hv : v ≠ (REPLY_TYPE : Int) := by
              intro hcon
              rw [hint, hcon] at hbad
              exact hbad rfl
            unfold ReplyWaiterProxy.receive_method
            rw [if_neg (by simp [hemp]), hint]
            show (if v ≠ (REPLY_TYPE : Int) then
                Except.error (PyErr.assertionError "Reply is expected!")
              else Except.ok payload)
              = Except.error (PyErr.assertionError "Reply is expected!")
            rw [if_pos hv]
    · left
      unfold ReplyWaiterProxy.receive_method
      rw [if_pos hemp]
  refine ⟨hmain, ?_⟩
  unfold ReplyWaiterProxy.resolved_calls
  rcases hmain with h | h | h <;> rw [h]

/-- Witness for the amended C4 at a concrete input. -/
theorem C4_invalid_reply_raises_assertion_witness :
    (ReplyWaiterProxy.receive_method "" "id" "7" "m" "p"
        = Except.error (PyErr.assertionError "Empty expected!")
      ∨ ReplyWaiterProxy.receive_method "" "id" "7" "m" "p"
          = Except.error PyErr.valueError
      ∨ ReplyWaiterProxy.receive_method "" "id" "7" "m" "p"
          = Except.error (PyErr.assertionError "Reply is expected!"))
    ∧ ReplyWaiterProxy.resolved_calls "" "id" "7" "m" "p" = [] :=
  C4_invalid_reply_raises_assertion "" "id" "7" "m" "p"
    (Or.inr (by decide))

/-- C5: a CALL-type request given to the generic dispatch path is rejected
up front: `send_request` raises UnsupportedSendPattern carrying the request
message type, sends no frame on the socket, and leaves the routing-table
state unchanged. -/
theorem C5_call_type_rejected (conf : Conf) (env : Env) (rt : RoutingTable)
    (sock : List Frame) (request : Request)
    (hcall : request.msg_type = CALL_TYPE) :
    DealerPublisherProxy.send_request conf env rt sock request
      = (rt, sock,
          Except.error (PyErr.unsupportedSendPattern request.msg_type)) := by
  unfold DealerPublisherProxy.send_request
  rw [if_pos hcall]

/-- Witness for C5 at a concrete input. -/
theorem C5_call_type_rejected_witness :
    DealerPublisherProxy.send_request ⟨0, true⟩ ⟨fun _ => ["A"], 0⟩ ⟨[], []⟩
      [] ⟨CALL_TYPE, "T", "m1", "c", "p"⟩
      = (⟨[], []⟩, [],
          Except.error (PyErr.unsupportedSendPattern CALL_TYPE)) :=
  C5_call_type_rejected ⟨0, true⟩ ⟨fun _ => ["A"], 0⟩ ⟨[], []⟩ []
    ⟨CALL_TYPE, "T", "m1", "c", "p"⟩ rfl

theorem update_after_fetch (conf : Conf) (e : Env) (rt1 : RoutingTable)
    (target : String)
    (h : dictGet rt1.routing_table target = some (e.get_hosts target, e.now))
    (hfix : RoutingTable._fetch_hosts e rt1 target = rt1) :
    RoutingTable._update_routing_table conf e rt1 target
      = (rt1, Except.ok ()) := by
  unfold RoutingTable._update_routing_table
  rw [h]
  by_cases hexp : RoutingTable._is_tm_expired conf e.now e.now = true
  · simp [hexp, hfix]
  · have hexp' : RoutingTable._is_tm_expired conf e.now e.now = false := by
      revert hexp
      cases RoutingTable._is_tm_expired conf e.now e.now <;> simp
    simp [hexp']

theorem update_stable (conf : Conf) (e : Env) (rt : RoutingTable)
    (target : String) :
    ∃ rt1,
      RoutingTable._update_routing_table conf e rt target
        = (rt1, Except.ok ())
      ∧ (dictGet rt.routing_table target ≠ none →
          rt1.routable_hosts = rt.routable_hosts)
      ∧ RoutingTable._update_routing_table conf e rt1 target
          = (rt1, Except.ok ()) := by
  rcases hcase : dictGet rt.routing_table target with _ | p
  · refine ⟨{ rt with
        routing_table :=
          (dictSet rt.routing_table target (e.get_hosts target, e.now)),
        routable_hosts :=
          (dictSet rt.routable_hosts target (e.get_hosts target)) },
      ?_, ?_, ?_⟩
    · simp only [RoutingTable._update_routing_table, hcase,
        RoutingTable._fetch_hosts, RoutingTable._renew_routable_hosts,
        dictGet_dictSet_self]
    · intro hcon
      exact absurd rfl hcon
    · apply update_after_fetch
      · exact dictGet_dictSet_self _ _ _
      · unfold RoutingTable._fetch_hosts
        have hcol : dictSet
            (dictSet rt.routing_table target (e.get_hosts target, e.now))
            target (e.get_hosts target, e.now)
            = dictSet rt.routing_table target (e.get_hosts target, e.now) :=
          dictSet_dictSet _ _ _ _
        simp only
        rw [hcol]
  · obtain ⟨hosts0, tm⟩ := p
    by_cases hexp : RoutingTable._is_tm_expired conf e.now tm = true
    · refine ⟨{ rt with
          routing_table :=
            (dictSet rt.routing_table target (e.get_hosts target, e.now)) },
        ?_, fun _ => rfl, ?_⟩
      · unfold RoutingTable._update_routing_table
        rw [hcase]
        simp [hexp, RoutingTable._fetch_hosts]
      · apply update_after_fetch
        · exact dictGet_dictSet_self _ _ _
        · unfold RoutingTable._fetch_hosts
          have hcol : dictSet
              (dictSet rt.routing_table target (e.get_hosts target, e.now))
              target (e.get_hosts target, e.now)
              = dictSet rt.routing_table target (e.get_hosts target, e.now) :=
            dictSet_dictSet _ _ _ _
          simp only
          rw [hcol]
    · have hexp' : RoutingTable._is_tm_expired conf e.now tm = false := by
        revert hexp
        cases RoutingTable._is_tm_expired conf e.now tm <;> simp
      have hid : RoutingTable._update_routing_table conf e rt target
          = (rt, Except.ok ()) := by
        unfold RoutingTable._update_routing_table
        rw [hcase]
        simp [hexp']
      exact ⟨rt, hid, fun _ => rfl, hid⟩

/-- Counterexample for C6: with TTL 0, a first `get_all_hosts` on a fresh
target fetches [A] and returns [A]; discovery then changes to [B], and a
second `get_all_hosts` refreshes the routing record to ([B], 1) as the claim
requires, yet still returns [A] — the stale routable queue, not the target's
current known endpoint set. -/
theorem C6_counterexample :
    RoutingTable.get_all_hosts ⟨0, false⟩ ⟨fun _ => ["A"], 0⟩ ⟨[], []⟩ "T"
      = (⟨[("T", (["A"], 0))], [("T", ["A"])]⟩, Except.ok ["A"])
    ∧ RoutingTable.get_all_hosts ⟨0, false⟩ ⟨fun _ => ["B"], 1⟩
        ⟨[("T", (["A"], 0))], [("T", ["A"])]⟩ "T"
      = (⟨[("T", (["B"], 1))], [("T", ["A"])]⟩, Except.ok ["A"]) := by
  constructor <;> decide

/-- C6 (amended): `get_all_hosts` returns a snapshot (a copy) of the
target's current RoutableQueue — refreshing the underlying routing record
first when it is missing or TTL-expired, and building record and queue when
the target was unknown — it never mutates an existing RoutableQueue, and an
immediately repeated call returns the identical result. The snapshot
reflects the queue, not the freshly fetched record, so right after a TTL
refresh it can still omit newly discovered endpoints. -/
theorem C6_get_all_hosts_snapshot (conf : Conf) (e : Env) (rt : RoutingTable)
    (target : String) :
    (RoutingTable.get_all_hosts conf e rt target).2
      = Except.ok ((dictGet
          (RoutingTable.get_all_hosts conf e rt target).1.routable_hosts
          target).getD [])
    ∧ (dictGet rt.routing_table target ≠ none →
        (RoutingTable.get_all_hosts conf e rt target).1.routable_hosts
          = rt.routable_hosts)
    ∧ RoutingTable.get_all_hosts conf e
        (RoutingTable.get_all_hosts conf e rt target).1 target
      = RoutingTable.get_all_hosts conf e rt target := by
  obtain ⟨rt1, hupd, hkeep, hstable⟩ := update_stable conf e rt target
  have hrun : RoutingTable.get_all_hosts conf e rt target
      = (rt1, Except.ok ((dictGet rt1.routable_hosts target).getD [])) := by
    simp only [RoutingTable.get_all_hosts, hupd]
  have hrun2 : RoutingTable.get_all_hosts conf e rt1 target
      = (rt1, Except.ok ((dictGet rt1.routable_hosts target).getD [])) := by
    simp only [RoutingTable.get_all_hosts, hstable]
  refine ⟨?_, ?_, ?_⟩
  · rw [hrun]
  · intro h
    rw [hrun]
    exact hkeep h
  · rw [hrun]
    exact hrun2

/-- Witness for the amended C6 at a concrete input: with a present record,
`get_all_hosts` leaves the routable-queue map unchanged. -/
theorem C6_get_all_hosts_snapshot_witness :
    (RoutingTable.get_all_hosts ⟨100, false⟩ ⟨fun _ => ["A"], 0⟩
        ⟨[("T", (["A"], 0))], [("T", ["A"])]⟩ "T").1.routable_hosts
      = [("T", ["A"])] :=
  (C6_get_all_hosts_snapshot ⟨100, false⟩ ⟨fun _ => ["A"], 0⟩
      ⟨[("T", (["A"], 0))], [("T", ["A"])]⟩ "T").2.1 (by decide)

theorem do_send_request_eq (sock : List Frame) (request : Request)
    (routing_key : String) :
    DealerPublisherProxy._do_send_request sock request routing_key
      = sock ++ [⟨"", true⟩, ⟨toString request.msg_type, true⟩,
          ⟨routing_key, true⟩, ⟨request.message_id, true⟩,
          ⟨request.context, true⟩, ⟨request.message, false⟩] := by
  simp [DealerPublisherProxy._do_send_request, sockSend]

/-- C7: in broadcast-incapable mode (use_pub_sub false), a non-CALL request
whose target snapshot-resolves to [A, B] makes `send_request` emit exactly
two six-frame envelopes, first one addressed to A then one to B (the
iteration order of the snapshot), identical in every frame except the
routing-key frame (index 2). -/
theorem C7_fanout_two_envelopes (conf : Conf) (env : Env)
    (rt rt1 : RoutingTable) (sock : List Frame) (request : Request)
    (A B : String)
    (hps : conf.use_pub_sub = false)
    (hnc : request.msg_type ≠ CALL_TYPE)
    (hres : RoutingTable.get_all_hosts conf env rt request.target
      = (rt1, Except.ok [A, B])) :
    DealerPublisherProxy.send_request conf env rt sock request
      = (rt1,
          sock ++ DealerPublisherProxy._do_send_request [] request A
            ++ DealerPublisherProxy._do_send_request [] request B,
          Except.ok ())
    ∧ (DealerPublisherProxy._do_send_request [] request A).length = 6
    ∧ (DealerPublisherProxy._do_send_request [] request B).length = 6
    ∧ (DealerPublisherProxy._do_send_request [] request A).getD 2 ⟨"", false⟩
        = ⟨A, true⟩
    ∧ (DealerPublisherProxy._do_send_request [] request B).getD 2 ⟨"", false⟩
        = ⟨B, true⟩
    ∧ ∀ i, i ≠ 2 →
        (DealerPublisherProxy._do_send_request [] request A).getD i
            ⟨"", false⟩
          = (DealerPublisherProxy._do_send_request [] request B).getD i
              ⟨"", false⟩ := by
  refine ⟨?_, ?_, ?_, ?_, ?_, ?_⟩
  · simp only [DealerPublisherProxy.send_request, if_neg hnc, hps,
      Bool.false_eq_true, if_false, hres]
    simp [do_send_request_eq, List.append_assoc]
  · simp [do_send_request_eq]
  · simp [do_send_request_eq]
  · simp [do_send_request_eq]
  · simp [do_send_request_eq]
  · intro i hi
    rcases i with _ | _ | i2
    · simp [do_send_request_eq]
    · simp [do_send_request_eq]
    · rcases i2 with _ | _ | _ | _ | i6
      · exact absurd rfl hi
      · simp [do_send_request_eq]
      · simp [do_send_request_eq]
      · simp [do_send_request_eq]
      · simp [do_send_request_eq]

/-- Witness for C7 at a concrete input: two envelopes, one to A, one to B. -/
theorem C7_fanout_two_envelopes_witness :
    DealerPublisherProxy.send_request ⟨100, false⟩ ⟨fun _ => ["A", "B"], 0⟩
      ⟨[], []⟩ [] ⟨CAST_TYPE, "T", "m1", "c", "p"⟩
      = (⟨[("T", (["A", "B"], 0))], [("T", ["A", "B"])]⟩,
          [⟨"", true⟩, ⟨"2", true⟩, ⟨"A", true⟩, ⟨"m1", true⟩, ⟨"c", true⟩,
           ⟨"p", false⟩,
           ⟨"", true⟩, ⟨"2", true⟩, ⟨"B", true⟩, ⟨"m1", true⟩, ⟨"c", true⟩,
           ⟨"p", false⟩],
          Except.ok ()) := by
  have h := C7_fanout_two_envelopes ⟨100, false⟩ ⟨fun _ => ["A", "B"], 0⟩
    ⟨[], []⟩ ⟨[("T", (["A", "B"], 0))], [("T", ["A", "B"])]⟩ []
    ⟨CAST_TYPE, "T", "m1", "c", "p"⟩ "A" "B" rfl (by decide) (by decide)
  exact h.1.trans (by decide)

/-- C8: every sent envelope, on both the generic dispatch path and the call
sender path, consists of exactly six frames in order — the zero-length
delimiter, the decimal string of the message type, the routing key, the
message id, the context blob, and the payload blob — with the SNDMORE flag
on every frame except the last. -/
theorem C8_envelope_six_frames (sock : List Frame) (request : Request)
    (routing_key : String) (conf : Conf) (env : Env) (rt rt' : RoutingTable)
    (k : String)
    (hcall : RoutingTable.get_routable_host conf env rt request.target
      = (rt', Except.ok k)) :
    DealerPublisherProxy._do_send_request sock request routing_key
      = sock ++ [⟨"", true⟩, ⟨toString request.msg_type, true⟩,
          ⟨routing_key, true⟩, ⟨request.message_id, true⟩,
          ⟨request.context, true⟩, ⟨request.message, false⟩]
    ∧ CallSenderProxy._do_send_request conf env rt sock request
      = (rt', sock ++ [⟨"", true⟩, ⟨toString request.msg_type, true⟩,
          ⟨k, true⟩, ⟨request.message_id, true⟩,
          ⟨request.context, true⟩, ⟨request.message, false⟩],
          Except.ok ()) := by
  constructor
  · exact do_send_request_eq sock request routing_key
  · simp only [CallSenderProxy._do_send_request, hcall]
    simp [sockSend, List.append_assoc]

/-- Witness for C8 at a concrete input: the call sender emits the six-frame
envelope with the round-robin routing key. -/
theorem C8_envelope_six_frames_witness :
    CallSenderProxy._do_send_request ⟨100, true⟩ ⟨fun _ => ["A"], 0⟩
      ⟨[], []⟩ [] ⟨CALL_TYPE, "T", "m1", "c", "p"⟩
      = (⟨[("T", (["A"], 0))], [("T", ["A"])]⟩,
          [⟨"", true⟩, ⟨"1", true⟩, ⟨"A", true⟩, ⟨"m1", true⟩, ⟨"c", true⟩,
           ⟨"p", false⟩], Except.ok ()) := by
  have h := C8_envelope_six_frames [] ⟨CALL_TYPE, "T", "m1", "c", "p"⟩ "rk"
    ⟨100, true⟩ ⟨fun _ => ["A"], 0⟩ ⟨[], []⟩
    ⟨[("T", (["A"], 0))], [("T", ["A"])]⟩ "A" (by decide)
  exact h.2.trans (by decide)

/-- C9: the TTL comparison `0 <= zmq_target_expire <= now - tm` holds exactly
when the configured TTL t satisfies 0 ≤ t ≤ now - tm; a negative TTL never
expires a record (so a lookup on a present record never re-fetches it), and
TTL 0 expires every record at any time now ≥ tm. -/
theorem C9_ttl_semantics (conf : Conf) :
    (∀ now tm : Int,
      RoutingTable._is_tm_expired conf now tm = true
        ↔ 0 ≤ conf.zmq_target_expire ∧ conf.zmq_target_expire ≤ now - tm)
    ∧ (conf.zmq_target_expire < 0 →
        ∀ now tm : Int, RoutingTable._is_tm_expired conf now tm = false)
    ∧ (conf.zmq_target_expire = 0 →
        ∀ now tm : Int, tm ≤ now →
          RoutingTable._is_tm_expired conf now tm = true)
    ∧ (conf.zmq_target_expire < 0 →
        ∀ (e : Env) (rt : RoutingTable) (target : String)
          (hosts : List String) (tm : Int),
        dictGet rt.routing_table target = some (hosts, tm) →
        RoutingTable._update_routing_table conf e rt target
          = (rt, Except.ok ())) := by
  refine ⟨?_, ?_, ?_, ?_⟩
  · intro now tm
    unfold RoutingTable._is_tm_expired
    simp
  · intro hneg now tm
    unfold RoutingTable._is_tm_expired
    have h : ¬ (0 : Int) ≤ conf.zmq_target_expire := by omega
    simp [h]
  · intro h0 now tm hle
    unfold RoutingTable._is_tm_expired
    rw [h0]
    simp
    omega
  · intro hneg e rt target hosts tm hrec
    have hf : RoutingTable._is_tm_expired conf e.now tm = false := by
      unfold RoutingTable._is_tm_expired
      have h : ¬ (0 : Int) ≤ conf.zmq_target_expire := by omega
      simp [h]
    unfold RoutingTable._update_routing_table
    rw [hrec]
    simp [hf]

/-- Witness for C9 at concrete values: TTL -1 never expires and the lookup
keeps the whole state unchanged; TTL 0 is expired as soon as now ≥ tm. -/
theorem C9_ttl_semantics_witness :
    RoutingTable._is_tm_expired ⟨-1, false⟩ 100 0 = false
    ∧ RoutingTable._is_tm_expired ⟨0, false⟩ 5 3 = true
    ∧ RoutingTable._update_routing_table ⟨-1, false⟩ ⟨fun _ => ["B"], 100⟩
        ⟨[("T", (["A"], 0))], [("T", ["A"])]⟩ "T"
      = (⟨[("T", (["A"], 0))], [("T", ["A"])]⟩, Except.ok ()) :=
  ⟨(C9_ttl_semantics ⟨-1, false⟩).2.1 (by decide) 100 0,
   (C9_ttl_semantics ⟨0, false⟩).2.2.1 rfl 5 3 (by decide),
   (C9_ttl_semantics ⟨-1, false⟩).2.2.2 (by decide) ⟨fun _ => ["B"], 100⟩
     ⟨[("T", (["A"], 0))], [("T", ["A"])]⟩ "T" ["A"] 0 (by decide)⟩

/-- C10: whenever a `get_routable_host` call returns normally and the
routing record of the target in the resulting state holds a non-empty
endpoint list, the target's routable queue in the resulting state is
non-empty — the queue is rebuilt from the record the moment a pop empties
it, so a successful call never leaves an empty queue behind. -/
theorem C10_queue_nonempty_after_success (conf : Conf) (e : Env)
    (rt rt' : RoutingTable) (target host : String) (hosts : List String)
    (tm : Int)
    (hcall : RoutingTable.get_routable_host conf e rt target
      = (rt', Except.ok host))
    (hrec : dictGet rt'.routing_table target = some (hosts, tm))
    (hne : hosts ≠ []) :
    ∃ q, dictGet rt'.routable_hosts target = some q ∧ q ≠ [] := by
  unfold RoutingTable.get_routable_host at hcall
  split at hcall
  · simp at hcall
  · split at hcall
    · simp at hcall
    · simp at hcall
    · split at hcall
      · rename_i x1 rt1 hupd x2 host1 rest hq1 hie
        simp only [RoutingTable._renew_routable_hosts] at hcall
        split at hcall
        · rename_i x3 rt3 heqren
          split at heqren
          · simp at heqren
          · rename_i hosts1 tm1 hg
            injection heqren with h1 h2
            injection hcall with h3 h4
            subst h3
            rw [← h1] at hrec ⊢
            refine ⟨hosts1, dictGet_dictSet_self _ _ _, ?_⟩
            simp only at hg hrec
            rw [hg] at hrec
            injection hrec with h5
            have h6 : hosts1 = hosts := congrArg Prod.fst h5
            intro hcon
            exact hne (by rw [← h6, hcon])
        · simp at hcall
      · rename_i x1 rt1 hupd x2 host1 rest hq1 hie
        injection hcall with h1 h2
        subst h1
        refine ⟨rest, dictGet_dictSet_self _ _ _, ?_⟩
        intro hcon
        rw [hcon] at hie
        simp at hie

/-- Witness for C10 at a concrete input: after a successful pop the queue
still holds the remaining endpoint. -/
theorem C10_queue_nonempty_after_success_witness :
    ∃ q, dictGet
        (⟨[("T", (["A", "B"], 0))], [("T", ["B"])]⟩
          : RoutingTable).routable_hosts "T" = some q ∧ q ≠ [] :=
  C10_queue_nonempty_after_success ⟨100, false⟩ ⟨fun _ => ["A"], 0⟩
    ⟨[("T", (["A", "B"], 0))], [("T", ["A", "B"])]⟩
    ⟨[("T", (["A", "B"], 0))], [("T", ["B"])]⟩ "T" "A" ["A", "B"] 0
    (by decide) (by decide) (by decide)
